import Mathlib

/-!
Shallow embedding of src/animatediff/sampling.py (ComfyUI-AnimateDiff-Evolved)
and verification of the frozen claims about it.

Conventions used throughout:
* Python exceptions are modelled by the `Except PyError` monad; a Python
  function that can fall off the end returning `None` is modelled with an
  `Option` result.
* Torch tensors of rank 4 are modelled by `Tensor4`: explicit shape plus a
  total data function on indices; all element-wise arithmetic is over `ℚ`
  (machine floats carry no claim-relevant semantics here).
* Python `del v` on a local variable is modelled by tracking the variable as
  an `Option`; deleting an unbound local raises `PyError.unboundLocalError`,
  exactly as CPython raises `UnboundLocalError`.
* Python `is` identity on control/patch handles is modelled by identifier
  equality (`Option ℕ`); identity on conditioning dictionaries is modelled by
  structural equality of the association list.
-/

/-- Exception classes that the embedded code can raise. -/
inductive PyError where
  | unboundLocalError
  | attributeError
  | assertionError
  | valueError
  | typeError
  | runtimeError
  deriving Repr, DecidableEq

/-- Rank-4 torch tensor (batch, channel, height, width): a shape together
with a total data function; indices outside the shape are phantom. -/
structure Tensor4 where
  nb : ℕ
  nc : ℕ
  nh : ℕ
  nw : ℕ
  data : ℕ → ℕ → ℕ → ℕ → ℚ

instance : Inhabited Tensor4 := ⟨⟨0, 0, 0, 0, fun _ _ _ _ => 0⟩⟩

/-- Rank-3 torch tensor (batch, height, width), used for masks. -/
structure Tensor3 where
  nb : ℕ
  nh : ℕ
  nw : ℕ
  data : ℕ → ℕ → ℕ → ℚ

/-- Shape tuple of a rank-4 tensor, as compared by the source code. -/
def Tensor4.shape4 (t : Tensor4) : ℕ × ℕ × ℕ × ℕ := (t.nb, t.nc, t.nh, t.nw)

/-- torch.zeros_like. -/
def Tensor4.zeros_like (t : Tensor4) : Tensor4 := { t with data := fun _ _ _ _ => 0 }

/-- torch.ones_like. -/
def Tensor4.ones_like (t : Tensor4) : Tensor4 := { t with data := fun _ _ _ _ => 1 }

/-- Division of every element by a scalar. -/
def Tensor4.divScalar (t : Tensor4) (q : ℚ) : Tensor4 :=
  { t with data := fun i j y z => t.data i j y z / q }

/-- Element-wise division of two same-shaped tensors. -/
def Tensor4.divT (t u : Tensor4) : Tensor4 :=
  { t with data := fun i j y z => t.data i j y z / u.data i j y z }

/-- Python slice `t[:, :, h0:h1, w0:w1]` with the usual clamping of the
bounds to the tensor extent. -/
def Tensor4.sliceHW (t : Tensor4) (h0 h1 w0 w1 : ℕ) : Tensor4 :=
  { nb := t.nb, nc := t.nc
    nh := min h1 t.nh - min h0 t.nh
    nw := min w1 t.nw - min w0 t.nw
    data := fun i j y z => t.data i j (y + h0) (z + w0) }

/-- Piece of a batch-dimension concatenation that batch row `i` falls into. -/
def Tensor4.catLookup : List Tensor4 → ℕ → Tensor4
  | [], _ => default
  | t :: rest, i => if i < t.nb then t else catLookup rest (i - t.nb)

/-- Row index within the piece selected by `Tensor4.catLookup`. -/
def Tensor4.catOffsetIdx : List Tensor4 → ℕ → ℕ
  | [], i => i
  | t :: rest, i => if i < t.nb then i else catOffsetIdx rest (i - t.nb)

/-- Concatenation of a list of tensors along the batch dimension
(torch.cat); shapes other than the batch extent are taken from the head. -/
def Tensor4.cat (ts : List Tensor4) : Tensor4 :=
  { nb := (ts.map Tensor4.nb).sum
    nc := (ts.headD default).nc
    nh := (ts.headD default).nh
    nw := (ts.headD default).nw
    data := fun i j y z =>
      (Tensor4.catLookup ts i).data (Tensor4.catOffsetIdx ts i) j y z }

/-- torch.Tensor.chunk along the batch dimension: `n` pieces of size
`ceil(nb / n)` except for a possibly smaller final piece. -/
def Tensor4.chunk (t : Tensor4) (n : ℕ) (o : ℕ) : Tensor4 :=
  let sz := (t.nb + n - 1) / n
  { nb := min sz (t.nb - o * sz), nc := t.nc, nh := t.nh, nw := t.nw
    data := fun i j y z => t.data (o * sz + i) j y z }

/-- Element-wise product of two tensors. -/
def Tensor4.mulT (t u : Tensor4) : Tensor4 :=
  { t with data := fun i j y z => t.data i j y z * u.data i j y z }

/-- Multiplication by a scalar. -/
def Tensor4.mulScalar (t : Tensor4) (q : ℚ) : Tensor4 :=
  { t with data := fun i j y z => t.data i j y z * q }

/-- Slice assignment with accumulation,
`buf[:, :, a2:a0+a2, a3:a1+a3] += v` for a value `v` shaped like the
slice: rows `a2 ≤ y < a0+a2` and columns `a3 ≤ z < a1+a3` within the
buffer extent receive the addition. -/
def Tensor4.addIntoArea (buf : Tensor4) (a0 a1 a2 a3 : ℕ) (v : Tensor4) : Tensor4 :=
  { buf with data := fun i j y z =>
      if a2 ≤ y ∧ y < a0 + a2 ∧ y < buf.nh ∧ a3 ≤ z ∧ z < a1 + a3 ∧ z < buf.nw then
        buf.data i j y z + v.data i j (y - a2) (z - a3)
      else buf.data i j y z }

/-- Conditioning value living inside the `model_conds` dictionary of a
conditioning entry.  Modelled from the spec: the values are external
comfy conditioning objects that expose `process_cond` (a device/area
normalisation, identity here), `can_concat` (reports concatenability with
another value; modelled as shape compatibility) and `concat`
(concatenation along the leading dimension).  Only the shape participates
in any claim. -/
structure CondItem where
  shape : List ℕ
  payload : ℕ
  deriving Repr, DecidableEq

/-- Modelled from the spec: `process_cond(batch_size, device, area)` of the
external conditioning-value protocol, an identity normalisation here. -/
def CondItem.process_cond (c : CondItem) (_batch_size : ℕ) : CondItem := c

/-- Modelled from the spec: the external conditioning-value protocol
`can_concat`, reporting whether two values can be concatenated (shape
compatibility; symmetric by construction, as the protocol intends). -/
def CondItem.can_concat (c1 c2 : CondItem) : Bool := c1.shape = c2.shape

/-- Modelled from the spec: concatenation of conditioning values along the
leading dimension. -/
def CondItem.concat (c : CondItem) (others : List CondItem) : CondItem :=
  { c with shape :=
      match c.shape with
      | [] => []
      | s0 :: rest => (s0 + (others.map (fun o => o.shape.headD 0)).sum) :: rest }

/-- Spatial area tuple `(height, width, y offset, x offset)`
corresponding to `area[0] .. area[3]` in the source. -/
structure Area where
  a0 : ℕ
  a1 : ℕ
  a2 : ℕ
  a3 : ℕ
  deriving Repr, DecidableEq

/-- One entry of the `cond` / `uncond` lists handed to the sampling
function: the dictionary fields read by `get_area_and_mult`
(src/animatediff/sampling.py lines 217-287).  Control and gligen handles
are modelled by identifiers standing for Python object identity. -/
structure CondRequest where
  timestep_start : Option ℚ := none
  timestep_end : Option ℚ := none
  area : Option Area := none
  strength : Option ℚ := none
  mask : Option Tensor3 := none
  mask_strength : Option ℚ := none
  model_conds : List (String × CondItem) := []
  control : Option ℕ := none
  gligen : Option ℕ := none

/-- Result tuple of `get_area_and_mult`:
`(input_x, mult, conditioning, area, control, patches)`. -/
structure CondTuple where
  input_x : Tensor4
  mult : Tensor4
  conditioning : List (String × CondItem)
  area : Area
  control : Option ℕ
  patches : Option ℕ

/-- Feathering factor along the height axis produced by the two row-ramp
loops of lines 252-257: an 8-row linear ramp on any horizontal tile edge
strictly interior to the canvas.  The bottom-edge slice
`mult[:, :, a0-1-t : a0-t, :]` follows CPython semantics: when
`a0 - 1 - t` is negative the bounds wrap by the tile height `a0`, so on
tiles shorter than the ramp the iterations with `t > a0` land on row
`2*a0 - 1 - t` and multiply it a second time by `(t+1)/8`, while the
boundary iteration `t = a0` is the empty slice `[-1:0]`. -/
def featherH (a0 a2 H y : ℕ) : ℚ :=
  (if a2 ≠ 0 ∧ y < 8 then ((y : ℚ) + 1) / 8 else 1) *
  (if a0 + a2 < H ∧ y < a0 ∧ a0 ≤ y + 8 then ((a0 : ℚ) - (y : ℚ)) / 8 else 1) *
  (if a0 + a2 < H ∧ y + 2 ≤ a0 ∧ 2 * a0 ≤ y + 8 then
    (2 * (a0 : ℚ) - (y : ℚ)) / 8 else 1)

/-- Feathering factor along the width axis (the two column-ramp loops of
lines 258-263), with the same CPython negative-slice wraparound on the
right-edge ramp: for `t > a1` the slice lands on column `2*a1 - 1 - t`
and multiplies it a second time. -/
def featherW (a1 a3 W z : ℕ) : ℚ :=
  (if a3 ≠ 0 ∧ z < 8 then ((z : ℚ) + 1) / 8 else 1) *
  (if a1 + a3 < W ∧ z < a1 ∧ a1 ≤ z + 8 then ((a1 : ℚ) - (z : ℚ)) / 8 else 1) *
  (if a1 + a3 < W ∧ z + 2 ≤ a1 ∧ 2 * a1 ≤ z + 8 then
    (2 * (a1 : ℚ) - (z : ℚ)) / 8 else 1)

/-- Embedding of `get_area_and_mult` (lines 217-287): timestep gating,
area slicing, mask/feather blend-multiplier construction, conditioning
processing, and the control / gligen-patch handles.  Returns `none` for a
request rejected by the timestep gate (the source returns `None`). -/
def get_area_and_mult (conds : CondRequest) (x_in : Tensor4) (timestep0 : ℚ) :
    Except PyError (Option CondTuple) := do
  let area := conds.area.getD ⟨x_in.nh, x_in.nw, 0, 0⟩
  let strength := conds.strength.getD 1
  if let some ts := conds.timestep_start then
    if timestep0 > ts then
      return none
  if let some te := conds.timestep_end then
    if timestep0 < te then
      return none
  let input_x := x_in.sliceHW area.a2 (area.a0 + area.a2) area.a3 (area.a1 + area.a3)
  let mult ←
    match conds.mask with
    | some mask0 => do
        let mask_strength := conds.mask_strength.getD 1
        if mask0.nh ≠ x_in.nh then throw .assertionError
        if mask0.nw ≠ x_in.nw then throw .assertionError
        let mask : Tensor4 :=
          { nb := input_x.nb, nc := input_x.nc, nh := input_x.nh, nw := input_x.nw
            data := fun i _ y z =>
              mask0.data (i % mask0.nb) (y + area.a2) (z + area.a3) * mask_strength }
        pure (mask.mulScalar strength)
    | none =>
        let mask := input_x.ones_like
        let m0 := mask.mulScalar strength
        pure { m0 with data := fun i j y z =>
                 m0.data i j y z * featherH area.a0 area.a2 x_in.nh y *
                   featherW area.a1 area.a3 x_in.nw z }
  let conditionning := conds.model_conds.map fun kv => (kv.1, kv.2.process_cond x_in.nb)
  let control := conds.control
  let patches := conds.gligen
  return some
    { input_x := input_x, mult := mult, conditioning := conditionning
      area := area, control := control, patches := patches }

/-- Key list of a conditioning dictionary. -/
def dictKeys (d : List (String × CondItem)) : List String := d.map Prod.fst

/-- Dictionary lookup on a conditioning dictionary (first match). -/
def dictLookup : List (String × CondItem) → String → Option CondItem
  | [], _ => none
  | kv :: rest, k => if kv.1 = k then some kv.2 else dictLookup rest k

/-- Tag for the conditioned branch (`COND = 0`, line 346). -/
def COND : ℕ := 0

/-- Tag for the unconditioned branch (`UNCOND = 1`, line 347). -/
def UNCOND : ℕ := 1

/-- Embedding of `cond_equal_size` (lines 289-297): identity shortcut,
key-set comparison, then per-key concatenability.  Python `c1 is c2` is
modelled as structural equality of the dictionaries; the key-set
comparison of `dict.keys()` is order-insensitive. -/
def cond_equal_size (c1 c2 : List (String × CondItem)) : Bool :=
  if c1 = c2 then true
  else if ¬ (dictKeys c1 ⊆ dictKeys c2 ∧ dictKeys c2 ⊆ dictKeys c1) then false
  else c1.all fun kv =>
    match dictLookup c2 kv.1 with
    | some v2 => kv.2.can_concat v2
    | none => false

/-- Embedding of `can_concat_cond` (lines 299-317): shape equality of the
two input tiles, identity of the control handles (both `None` or the same
handle), identity of the patch sets, then `cond_equal_size`. -/
def can_concat_cond (c1 c2 : CondTuple) : Bool :=
  if c1.input_x.shape4 ≠ c2.input_x.shape4 then false
  else if c1.control.isNone ≠ c2.control.isNone then false
  else if c1.control.isSome ∧ c1.control ≠ c2.control then false
  else if c1.patches.isNone ≠ c2.patches.isNone then false
  else if c1.patches.isSome ∧ c1.patches ≠ c2.patches then false
  else cond_equal_size c1.conditioning c2.conditioning

/-- Embedding of `cond_cat` (lines 319-337): group the values of the
batched conditioning dictionaries by key (order of first appearance) and
concatenate each group onto its first element. -/
def cond_cat (c_list : List (List (String × CondItem))) : List (String × CondItem) :=
  let keys := (c_list.map dictKeys).flatten.dedup
  keys.filterMap fun k =>
    match c_list.filterMap (fun d => dictLookup d k) with
    | [] => none
    | v :: vs => some (k, v.concat vs)

/-- Embedding of the batch-size selection loop (lines 375-379): for
`i = 1, 2, ...` try the prefix of length `len / i` of the candidate list
and stop at the first one whose total area `len/i * s0 * s2 * s3` is
strictly below the budget; if no attempt succeeds the initial value
`take 1` (line 373) is kept. -/
def select_batch_loop (to_batch_temp : List ℕ) (s0 s2 s3 : ℕ)
    (max_total_area : ℕ) : List ℕ → List ℕ
  | [] => to_batch_temp.take 1
  | i :: rest =>
      let batch_amount := to_batch_temp.take (to_batch_temp.length / i)
      if batch_amount.length * s0 * s2 * s3 < max_total_area then batch_amount
      else select_batch_loop to_batch_temp s0 s2 s3 max_total_area rest

/-- Batch selection over the (already reversed) list of mergeable request
indices, iterating `i` over `range(1, len(to_batch_temp) + 1)`
(lines 372-379). -/
def select_to_batch (to_batch_temp : List ℕ) (s0 s2 s3 : ℕ)
    (max_total_area : ℕ) : List ℕ :=
  select_batch_loop to_batch_temp s0 s2 s3 max_total_area (List.range' 1 to_batch_temp.length)

/-- Type of the denoising model function. -/
abbrev ModelFn := Tensor4 → List ℚ → List (String × CondItem) → Tensor4

/-- Options dictionary of the sampler: the model-function wrapper hook
(lines 425-428) and the sampler cfg hook (lines 561-563).  The
transformer-options bookkeeping (lines 407-423) only decorates the
dictionary handed to the model function and carries no claim-relevant
content; it is elided. -/
structure ModelOptions where
  model_function_wrapper :
    Option (ModelFn → Tensor4 → List ℚ → List (String × CondItem) → Tensor4) := none
  sampler_cfg_function : Option (Tensor4 → Tensor4 → ℚ → List ℚ → Tensor4) := none

/-- Construction of the `to_run` list (lines 349-362): every request of
`cond` and, when present, of `uncond` that passes the timestep gate of
`get_area_and_mult`, tagged with its branch. -/
def build_to_run (cond : List CondRequest) (uncond : Option (List CondRequest))
    (x_in : Tensor4) (timestep0 : ℚ) : Except PyError (List (CondTuple × ℕ)) := do
  let mut to_run : List (CondTuple × ℕ) := []
  for x_t in cond do
    let p ← get_area_and_mult x_t x_in timestep0
    match p with
    | none => pure ()
    | some p => to_run := to_run ++ [(p, COND)]
  match uncond with
  | none => pure ()
  | some uncondList =>
    for x_t in uncondList do
      let p ← get_area_and_mult x_t x_in timestep0
      match p with
      | none => pure ()
      | some p => to_run := to_run ++ [(p, UNCOND)]
  return to_run

/-- Mutable locals of the scatter loop (lines 433-449).  `input_x` and
`mult` are tracked as options because the source deletes them (`del`)
while the loop can still read them; reading or deleting an unbound local
raises `UnboundLocalError`. -/
structure ScatterState where
  out_cond : Tensor4
  out_count : Tensor4
  out_uncond : Tensor4
  out_uncond_count : Tensor4
  input_x : Option Tensor4
  mult : Option (List Tensor4)
  output : List Tensor4

/-- One pass of the inner, well-formed scatter loop (lines 442-448):
route chunk `o` into the conditioned or unconditioned buffers, multiplied
by its blend multiplier, and add the multiplier to the matching count. -/
def inner_scatter_step (cond_or_uncond : List ℕ) (areaList : List Area)
    (st : ScatterState) (o : ℕ) : Except PyError ScatterState := do
  let some multList := st.mult | throw .unboundLocalError
  let ar := areaList.getD o ⟨0, 0, 0, 0⟩
  let chunk := st.output.getD o default
  let m := multList.getD o default
  if cond_or_uncond.getD o 0 = COND then
    return { st with
      out_cond := st.out_cond.addIntoArea ar.a0 ar.a1 ar.a2 ar.a3 (chunk.mulT m)
      out_count := st.out_count.addIntoArea ar.a0 ar.a1 ar.a2 ar.a3 m }
  else
    return { st with
      out_uncond := st.out_uncond.addIntoArea ar.a0 ar.a1 ar.a2 ar.a3 (chunk.mulT m)
      out_uncond_count := st.out_uncond_count.addIntoArea ar.a0 ar.a1 ar.a2 ar.a3 m }

/-- One pass of the outer, mangled scatter loop (lines 433-449) at chunk
index `o`: the conditioned branch scatters chunk `o` (lines 435-437),
the unconditioned branch recomputes `output` from `input_x` even though
`input_x` was deleted at line 431 (line 439); the loop then executes
`del input_x` a second time (line 440), runs the inner scatter loop
(lines 442-448) and finally `del mult` (line 449). -/
def scatter_step_mangled (model_function : ModelFn) (timestep_ : List ℚ)
    (c : List (String × CondItem)) (batch_chunks : ℕ) (cond_or_uncond : List ℕ)
    (areaList : List Area) (st : ScatterState) (o : ℕ) :
    Except PyError ScatterState := do
  let ar := areaList.getD o ⟨0, 0, 0, 0⟩
  let st1 ←
    if cond_or_uncond.getD o 0 = COND then do
      let some multList := st.mult | throw .unboundLocalError
      let chunk := st.output.getD o default
      let m := multList.getD o default
      pure { st with
        out_cond := st.out_cond.addIntoArea ar.a0 ar.a1 ar.a2 ar.a3 (chunk.mulT m)
        out_count := st.out_count.addIntoArea ar.a0 ar.a1 ar.a2 ar.a3 m }
    else do
      let some ix := st.input_x | throw .unboundLocalError
      let outp := model_function ix timestep_ c
      pure { st with output := (List.range batch_chunks).map fun k => outp.chunk batch_chunks k }
  let some _ := st1.input_x | throw .unboundLocalError
  let st2 : ScatterState := { st1 with input_x := none }
  let st3 ← (List.range batch_chunks).foldlM (inner_scatter_step cond_or_uncond areaList) st2
  let some _ := st3.mult | throw .unboundLocalError
  return { st3 with mult := none }

/-- Initial value of the count buffers of `calc_cond_uncond_batch`
(lines 341 and 344): `torch.ones_like(x_in) / 100000.0`, the strictly
positive epsilon of the baseline path. -/
def calc_init_count (x_in : Tensor4) : Tensor4 :=
  x_in.ones_like.divScalar 100000

/-- One pass of the while-loop body of `calc_cond_uncond_batch`
(lines 364-456): pick the group of requests mergeable with the head of
`to_run`, select the batch under the area budget, pop the selected
requests (descending indices, as produced by the reversal at line 372),
concatenate their inputs and conditioning, run the model function once,
delete `input_x` (line 431), then run the mangled scatter loop; the
normalisation and the return statement (lines 451-456) also live inside
the while loop and therefore inside this body. -/
def calc_batch_body (model_function : ModelFn) (timestep : List ℚ)
    (max_total_area : ℕ) (model_options : ModelOptions)
    (out_cond out_count out_uncond out_uncond_count : Tensor4)
    (to_run : List (CondTuple × ℕ)) (first : CondTuple × ℕ) :
    Except PyError (Option (Tensor4 × Tensor4)) := do
  let first_shape := first.1.input_x.shape4
  let to_batch_temp := (List.range to_run.length).filter fun i =>
    can_concat_cond ((to_run.getD i first).1) first.1
  let to_batch := select_to_batch to_batch_temp.reverse
    first_shape.1 first_shape.2.2.1 first_shape.2.2.2 max_total_area
  let picked := to_batch.filterMap fun i => to_run[i]?
  let input_x_list := picked.map fun o => o.1.input_x
  let multList := picked.map fun o => o.1.mult
  let cList := picked.map fun o => o.1.conditioning
  let areaList := picked.map fun o => o.1.area
  let cond_or_uncond := picked.map fun o => o.2
  let control := (picked.map fun o => o.1.control).getLastD none
  let patches := (picked.map fun o => o.1.patches).getLastD none
  let batch_chunks := cond_or_uncond.length
  let input_x := Tensor4.cat input_x_list
  let c := cond_cat cList
  let timestep_ := (List.replicate batch_chunks timestep).flatten
  let c := match control with
    | some ctrlId => c ++ [("control", ⟨[], ctrlId⟩)]
    | none => c
  let _ := patches
  let output := match model_options.model_function_wrapper with
    | some wrapper => wrapper model_function input_x timestep_ c
    | none => model_function input_x timestep_ c
  let outputChunks := (List.range batch_chunks).map fun k => output.chunk batch_chunks k
  let st0 : ScatterState :=
    { out_cond := out_cond, out_count := out_count
      out_uncond := out_uncond, out_uncond_count := out_uncond_count
      input_x := none, mult := some multList, output := outputChunks }
  let st ← (List.range batch_chunks).foldlM
    (scatter_step_mangled model_function timestep_ c batch_chunks cond_or_uncond areaList) st0
  return some (st.out_cond.divT st.out_count, st.out_uncond.divT st.out_uncond_count)

/-- Embedding of `calc_cond_uncond_batch` (lines 339-456).  The source is
mangled: the scatter loop recomputes `output` from `input_x` after
`del input_x` already ran (lines 431 and 439) and executes `del input_x`
again inside the loop (line 440), and the buffer normalisation together
with the `return` statement (lines 451-456) are indented inside the
`while` loop.  Hence the while loop can never complete one full
iteration normally, so no recursion is needed: an empty `to_run` skips
the loop and the function falls off the end returning `None`; a
non-empty `to_run` enters the body exactly once. -/
def calc_cond_uncond_batch (model_function : ModelFn) (cond : List CondRequest)
    (uncond : Option (List CondRequest)) (x_in : Tensor4) (timestep : List ℚ)
    (max_total_area : ℕ) (model_options : ModelOptions) :
    Except PyError (Option (Tensor4 × Tensor4)) := do
  let out_cond := x_in.zeros_like
  let out_count := calc_init_count x_in
  let out_uncond := x_in.zeros_like
  let out_uncond_count := calc_init_count x_in
  let to_run ← build_to_run cond uncond x_in (timestep.getD 0 0)
  match to_run with
  | [] => return none
  | first :: _ =>
      calc_batch_body model_function timestep max_total_area model_options
        out_cond out_count out_uncond out_uncond_count to_run first

/-- Power-of-two test (spec side). -/
def isPow2 (s : ℕ) : Bool :=
  (List.range (s + 1)).any fun k => 2 ^ k == s

/-- Definition following the claim wording for C7, for comparison against
the source selection: the largest power-of-two subset size, at most the
group size, whose total area stays strictly under the budget; 0 when no
such size exists. -/
def claimed_pow2_batch_size (n s0 s2 s3 budget : ℕ) : ℕ :=
  ((List.range (n + 1)).filter fun s =>
    isPow2 s && decide (s * s0 * s2 * s3 < budget)).foldr max 0

/-- Expansion of a context window across every axis repeat of the batch
(lines 531-535): `full_idxs` lists `video_length * n + ind` for every
repeat `n < axes_factor` and every window index `ind`. -/
def expand_full_idxs (axes_factor video_length : ℕ) (ctx : List ℕ) : List ℕ :=
  (List.range axes_factor).flatMap fun n => ctx.map fun ind => video_length * n + ind

/-- Gather of batch rows, `t[idxs]` along the leading dimension
(line 537). -/
def Tensor4.gatherB (t : Tensor4) (idxs : List ℕ) : Tensor4 :=
  { nb := idxs.length, nc := t.nc, nh := t.nh, nw := t.nw
    data := fun i j y z => t.data (idxs.getD i 0) j y z }

/-- Position of the write that wins for row `i` in a torch index-put with
index list `idxs` (the last occurrence of `i`). -/
def lastPos (idxs : List ℕ) (i : ℕ) : ℕ :=
  idxs.length - 1 - idxs.reverse.indexOf i

/-- Torch `buf[idxs] += v` along the batch dimension: gather the indexed
rows, add `v`, write back; for a duplicated row index the last occurrence
wins (index-put semantics without accumulation). -/
def Tensor4.indexPutAdd (buf : Tensor4) (idxs : List ℕ) (v : Tensor4) : Tensor4 :=
  { buf with data := fun i j y z =>
      if i ∈ idxs then buf.data i j y z + v.data (lastPos idxs i) j y z
      else buf.data i j y z }

/-- The per-frame usage counter update `out_count_final[full_idxs] += 1`
(line 546): every covered row stores its old value plus one; even a
duplicated row index stores that same value, so each window increments a
covered row by exactly 1. -/
def countIncr (cnt : ℕ → ℚ) (idxs : List ℕ) : ℕ → ℚ :=
  fun i => if i ∈ idxs then cnt i + 1 else cnt i

/-- Mutable buffers of the sliding window loop (lines 467-469): the two
accumulation tensors and the usage counter of shape `(nb, 1, 1, 1)`,
modelled as a per-row function. -/
structure SlidingState where
  cond_final : Tensor4
  uncond_final : Tensor4
  out_count_final : ℕ → ℚ

/-- Gather of mask rows, `m[idxs]` along the leading dimension. -/
def Tensor3.gatherB (m : Tensor3) (idxs : List ℕ) : Tensor3 :=
  { nb := idxs.length, nh := m.nh, nw := m.nw
    data := fun i y z => m.data (idxs.getD i 0) y z }

/-- Effect of the nested-dictionary pass of `get_resized_cond`
(lines 506-517) on a `model_conds` value: every comfy conditioning
object carries a `cond` tensor, and one whose leading dimension equals
the full batch length is rebuilt through its copy-with-replacement
operation on the gathered rows, which sets the leading dimension to the
window length; other values are kept. -/
def CondItem.resize (c : CondItem) (xlen : ℕ) (full_idxs : List ℕ) : CondItem :=
  if c.shape.headD 0 = xlen then { c with shape := full_idxs.length :: c.shape.tail }
  else c

/-- Effect of `get_resized_cond` (lines 478-523) on the typed request
dictionaries consumed by `get_area_and_mult`.  Per field of the dict:
the gating scalars, the area tuple, the strength values and the gligen
tuple fall through the final else branch unchanged; the mask tensor is
gathered when its leading dimension equals `x.size(0)` (the isinstance
branch of lines 488-495); the `model_conds` dictionary is processed one
level deep (lines 506-517); a control handle must expose the
window-scope protocol or the hard error of lines 501-503 is raised.
The per-object protocol probe (`hasattr`) on the identifier handles of
this request model is the parameter `supports`; the chain update
written on a supporting handle is the in-place mutation embedded as
`prepare_control_objects` on the full dictionary model. -/
def get_resized_cond_requests (supports : ℕ → Bool) (xlen : ℕ)
    (full_idxs : List ℕ) :
    List CondRequest → Except PyError (List CondRequest)
  | [] => pure []
  | r :: rest => do
      match r.control with
      | some cid => if supports cid then pure () else throw .valueError
      | none => pure ()
      let r2 : CondRequest :=
        { r with
          mask := r.mask.map fun m => if m.nb = xlen then m.gatherB full_idxs else m
          model_conds := r.model_conds.map fun kv => (kv.1, kv.2.resize xlen full_idxs) }
      let rest2 ← get_resized_cond_requests supports xlen full_idxs rest
      pure (r2 :: rest2)

/-- The window loop of `sliding_calc_cond_uncond_batch` (lines 526-546):
per window, expand the indices across the axis repeats, gather the
sub-batch and sub-timesteps (lines 531-538), project the conditioning
lists (lines 539-540), run the nested `calc_cond_uncond_batch`
(line 542) - whose exceptions propagate, and whose `None` return fails
the tuple unpacking of line 542 with `TypeError` - then accumulate the
two sub-results and the usage count (lines 544-546). -/
def sliding_window_loop (model_function : ModelFn) (supports : ℕ → Bool)
    (cond : List CondRequest) (uncond : Option (List CondRequest)) (x : Tensor4)
    (timestep : List ℚ) (max_total_area : ℕ) (model_options : ModelOptions)
    (axes_factor video_length : ℕ) :
    List (List ℕ) → SlidingState → Except PyError SlidingState
  | [], st => pure st
  | ctx :: rest, st => do
      let full_idxs := expand_full_idxs axes_factor video_length ctx
      let sub_x := x.gatherB full_idxs
      let sub_timestep := full_idxs.map fun i => timestep.getD i 0
      let sub_cond ← get_resized_cond_requests supports x.nb full_idxs cond
      let sub_uncond ←
        match uncond with
        | none => pure none
        | some u => do
            let u2 ← get_resized_cond_requests supports x.nb full_idxs u
            pure (some u2)
      let result ← calc_cond_uncond_batch model_function sub_cond sub_uncond sub_x
        sub_timestep max_total_area model_options
      match result with
      | none => throw .typeError
      | some sub_out =>
          sliding_window_loop model_function supports cond uncond x timestep
            max_total_area model_options axes_factor video_length rest
            { cond_final := st.cond_final.indexPutAdd full_idxs sub_out.1
              uncond_final := st.uncond_final.indexPutAdd full_idxs sub_out.2
              out_count_final := countIncr st.out_count_final full_idxs }

/-- Embedding of `sliding_calc_cond_uncond_batch` (lines 460-551): the
two accumulation buffers and the zero-initialised per-frame usage
counter (lines 467-469), the window loop over the schedule produced by
the external context scheduler (`get_context_scheduler` lives outside
src, so the window list is a parameter), and the element-wise division
of both buffers by the usage counts (lines 548-551), which is reached
only if every window completes.  The source operates on the closure
variable `x` of the enclosing `sliding_sampling_function`, not on its
own `x_in` argument. -/
def sliding_calc_cond_uncond_batch (model_function : ModelFn) (supports : ℕ → Bool)
    (cond : List CondRequest) (uncond : Option (List CondRequest)) (x : Tensor4)
    (timestep : List ℚ) (max_total_area : ℕ) (model_options : ModelOptions)
    (video_length : ℕ) (windows : List (List ℕ)) :
    Except PyError (Tensor4 × Tensor4) := do
  let axes_factor := x.nb / video_length
  let st ← sliding_window_loop model_function supports cond uncond x timestep
    max_total_area model_options axes_factor video_length windows
    { cond_final := x.zeros_like, uncond_final := x.zeros_like
      out_count_final := fun _ => 0 }
  pure ({ st.cond_final with data := fun i j y z =>
            st.cond_final.data i j y z / st.out_count_final i },
        { st.uncond_final with data := fun i j y z =>
            st.uncond_final.data i j y z / st.out_count_final i })

/-- One link of a control-signal chain: the window-scope protocol flag
(whether the object exposes a `sub_idxs` attribute, the marker probed at
line 499), the three window-scope fields written by
`prepare_control_objects`, and an opaque payload standing for every
other attribute of the external object. -/
structure ControlLink where
  supports_sliding : Bool
  sub_idxs : Option (List ℕ)
  full_latent_length : ℕ
  context_length : ℕ
  payload : ℕ
  deriving Repr, DecidableEq

/-- A control-signal handle: the object itself plus the chain reachable
through the `previous_controlnet` links. -/
structure Control where
  head : ControlLink
  prev : List ControlLink
  deriving Repr, DecidableEq

/-- Window-scope update of one link (lines 474-476). -/
def set_window_scope (l : ControlLink) (full_idxs : List ℕ)
    (video_length context_frames : ℕ) : ControlLink :=
  { l with sub_idxs := some full_idxs
           full_latent_length := video_length
           context_length := context_frames }

/-- Embedding of `prepare_control_objects` (lines 471-476): recurse
through the previous links and write the window-scope fields
(`sub_idxs = full_idxs`, `full_latent_length = ADGS.video_length`,
`context_length = ADGS.context_frames`) on every link of the chain.  The
source mutates the shared handle in place; the embedding returns the
updated chain, every non-window-scope attribute unchanged. -/
def prepare_control_objects (control : Control) (full_idxs : List ℕ)
    (video_length context_frames : ℕ) : Control :=
  { head := set_window_scope control.head full_idxs video_length context_frames
    prev := control.prev.map fun l => set_window_scope l full_idxs video_length context_frames }

/-- Value inside a nested dictionary field of a conditioning entry
(lines 506-517): a tensor, an object exposing a `cond` tensor together
with a copy-with-replacement operation, or an opaque value. -/
inductive InnerValue (α : Type) where
  | tensor (rows : List α)
  | condObj (cond : List α) (payload : ℕ)
  | scalarVal (payload : ℕ)
  deriving Repr, DecidableEq

/-- Field value of a conditioning entry as dispatched by
`get_resized_cond` (lines 485-519): a per-frame tensor, a control
handle, a nested dictionary, or an opaque value. -/
inductive CondValue (α : Type) where
  | tensor (rows : List α)
  | control (c : Control)
  | mapping (m : List (String × InnerValue α))
  | scalarVal (payload : ℕ)
  deriving Repr, DecidableEq

instance {α : Type} : Inhabited (CondValue α) := ⟨.scalarVal 0⟩

/-- Order-preserving gather of rows at the given indices
(`cond_item[full_idxs]`); duplicate indices are allowed. -/
def gatherRows {α : Type} [Inhabited α] (rows : List α) (idxs : List ℕ) : List α :=
  idxs.map fun i => rows.getD i default

/-- Projection of one nested-dictionary value (lines 509-516): tensors
with leading dimension equal to the full batch length are gathered, a
wrapped tensor of that length is rebuilt through its
copy-with-replacement operation, anything else is kept. -/
def resize_inner_value {α : Type} [Inhabited α] (xlen : ℕ) (full_idxs : List ℕ) :
    InnerValue α → InnerValue α
  | .tensor rows =>
      if rows.length = xlen then .tensor (gatherRows rows full_idxs) else .tensor rows
  | .condObj cond payload =>
      if cond.length = xlen then .condObj (gatherRows cond full_idxs) payload
      else .condObj cond payload
  | .scalarVal p => .scalarVal p

/-- Dispatch of `get_resized_cond` on one field (lines 485-519): a tensor
whose leading dimension equals the full batch length is gathered at the
window indices, other tensors pass through (the isinstance test precedes
the key test, as in the source); a field under the key "control" must
expose the window-scope protocol and has its whole chain updated
(otherwise the hard error of lines 501-503 is raised); nested
dictionaries are processed one level deep; every other value passes
through unchanged. -/
def resize_cond_field {α : Type} [Inhabited α] (xlen : ℕ) (full_idxs : List ℕ)
    (video_length context_frames : ℕ) (key : String) :
    CondValue α → Except PyError (CondValue α)
  | .tensor rows =>
      if rows.length = xlen then pure (.tensor (gatherRows rows full_idxs))
      else pure (.tensor rows)
  | .control c =>
      if key = "control" then
        if c.head.supports_sliding then
          pure (.control (prepare_control_objects c full_idxs video_length context_frames))
        else throw .valueError
      else pure (.control c)
  | .mapping m =>
      if key = "control" then throw .valueError
      else pure (.mapping (m.map fun kv => (kv.1, resize_inner_value xlen full_idxs kv.2)))
  | .scalarVal p =>
      if key = "control" then throw .valueError
      else pure (.scalarVal p)

/-- Projection of one conditioning entry: the field loop of
lines 482-522, building the copied entry with each field resized. -/
def resize_cond_entry {α : Type} [Inhabited α] (xlen : ℕ) (full_idxs : List ℕ)
    (video_length context_frames : ℕ) :
    List (String × CondValue α) → Except PyError (List (String × CondValue α))
  | [] => pure []
  | kv :: rest => do
      let v ← resize_cond_field xlen full_idxs video_length context_frames kv.1 kv.2
      let rest2 ← resize_cond_entry xlen full_idxs video_length context_frames rest
      pure ((kv.1, v) :: rest2)

/-- Embedding of `get_resized_cond` (lines 478-523): projection of every
entry of a conditioning list onto the expanded window indices.  `xlen`,
`video_length` and `context_frames` stand for the closure variables
`x.size(0)`, `ADGS.video_length` and `ADGS.context_frames`. -/
def get_resized_cond {α : Type} [Inhabited α] (xlen : ℕ) (full_idxs : List ℕ)
    (video_length context_frames : ℕ) :
    List (List (String × CondValue α)) → Except PyError (List (List (String × CondValue α)))
  | [] => pure []
  | e :: rest => do
      let e2 ← resize_cond_entry xlen full_idxs video_length context_frames e
      let rest2 ← get_resized_cond xlen full_idxs video_length context_frames rest
      pure (e2 :: rest2)

instance : Inhabited ControlLink := ⟨⟨false, none, 0, 0, 0⟩⟩

/-- Embedding of `AnimateDiffHelper_GlobalState` (lines 33-65), the
module-global run state `ADGS`; the motion-module handle is an
identifier. -/
structure GlobalState where
  start_step : ℕ
  last_step : ℕ
  current_step : ℕ
  total_steps : ℕ
  video_length : ℕ
  context_frames : Option ℕ
  context_stride : Option ℕ
  context_overlap : Option ℕ
  context_schedule : Option String
  closed_loop : Bool
  sync_context_to_pe : Bool
  sub_idxs : Option (List ℕ)
  motion_module : Option ℕ
  deriving Repr, DecidableEq

/-- Embedding of `AnimateDiffHelper_GlobalState.reset` (lines 38-53):
every field back to its default, the motion-module handle dropped. -/
def GlobalState.reset (_s : GlobalState) : GlobalState :=
  { start_step := 0, last_step := 0, current_step := 0, total_steps := 0
    video_length := 0, context_frames := none, context_stride := none
    context_overlap := none, context_schedule := none, closed_loop := false
    sync_context_to_pe := false, sub_idxs := none, motion_module := none }

/-- Embedding of `is_using_sliding_context` (lines 64-65). -/
def GlobalState.is_using_sliding_context (s : GlobalState) : Bool :=
  s.context_frames.isSome

/-- Modelled from the spec: the injection parameters attached to a model
by the motion-module collaborator (`InjectionParams` lives outside src);
only the fields read by src/animatediff/sampling.py are modelled. -/
structure InjectionParams where
  video_length : ℕ
  context_length : Option ℕ
  context_stride : Option ℕ
  context_overlap : Option ℕ
  context_schedule : Option String
  closed_loop : Bool
  sync_context_to_pe : Bool
  unlimited_area_hack : Bool
  apply_mm_groupnorm_hack : Bool
  beta_schedule : ℕ
  has_loras : Bool
  deriving Repr, DecidableEq

/-- Embedding of `update_with_inject_params` (lines 55-62). -/
def GlobalState.update_with_inject_params (s : GlobalState) (p : InjectionParams) :
    GlobalState :=
  { s with video_length := p.video_length, context_frames := p.context_length
           context_stride := p.context_stride, context_overlap := p.context_overlap
           context_schedule := p.context_schedule, closed_loop := p.closed_loop
           sync_context_to_pe := p.sync_context_to_pe }

/-- Embedding of `sliding_sampling_function` (lines 216-565).  In the
source, the statements of lines 553-565 (budget computation, dispatch to
the baseline or sliding batch path, and the classifier-free-guidance
combination) are indented inside the nested
`sliding_calc_cond_uncond_batch` after its `return` at line 551, making
them unreachable; the outer function body therefore consists solely of
nested `def` statements and falls off its end, returning `None` for
every input.  The global `ADGS` that the (dead) dispatch would read is
passed explicitly. -/
def sliding_sampling_function (_gs : GlobalState) (_model_function : ModelFn)
    (_x : Tensor4) (_timestep : List ℚ) (_uncond : Option (List CondRequest))
    (_cond : List CondRequest) (_cond_scale : ℚ) (_model_options : ModelOptions) :
    Option Tensor4 :=
  none

/-- Identifier of a host-framework function reference. -/
abbrev FuncRef := ℕ

/-- The five externally patched function slots saved at lines 138-142 and
restored at lines 202-206. -/
structure FuncTable where
  forward_timestep_embed : FuncRef
  maximum_batch_area : FuncRef
  groupnorm_forward : FuncRef
  groupnormad_forward : FuncRef
  sampling_function : FuncRef
  deriving Repr, DecidableEq

/-- Tag of the replacement `forward_timestep_embed` (line 149). -/
def injected_forward_timestep_embed : FuncRef := 101

/-- Tag of the replacement `unlimited_batch_area` (line 151). -/
def injected_unlimited_batch_area : FuncRef := 102

/-- Tag of the replacement group-norm forward (lines 152-154). -/
def injected_groupnorm_mm_forward : FuncRef := 103

/-- Tag of the replacement `sliding_sampling_function` (line 155). -/
def injected_sliding_sampling_function : FuncRef := 104

/-- Host-process state touched by `animatediff_sample`: the patchable
function table, the beta schedule registered on the model, the global
run state, the injection status of the motion module and its scale
multiplier flag. -/
structure HostState where
  funcs : FuncTable
  beta_schedule : ℕ
  adgs : GlobalState
  mm_injected : Bool
  mm_scale_set : Bool
  deriving Repr, DecidableEq

/-- A model handle; `injected_params` present means
`is_injected_mm_params` (modelled from the spec, the predicate lives
outside src) answers true. -/
structure Model where
  injected_params : Option InjectionParams
  deriving Repr, DecidableEq

/-- Which external collaborator call raises during the run, to examine
error propagation through the try/finally of lines 127-211. -/
inductive FailPoint where
  | noFail
  | atLoadMotionModule
  | atOrigSample
  deriving Repr, DecidableEq

/-- Embedding of the finally block (lines 189-211).  Modelled from the
spec where collaborators live outside src: `eject_motion_module` clears
the injection flag and does not raise.  The local `motion_module` is
`None` whenever the try body raised before line 159 completed; then
`motion_module.reset_scale_multiplier()` (line 193) raises
`AttributeError`, aborting the block before any of the restoration
statements (lines 202-210) run.  With a bound module the block resets
the scale multiplier, restores the five patched slots, reapplies the
cached beta schedule and resets the global state. -/
def finally_block (st : HostState) (motion_module : Option ℕ)
    (saved_funcs : FuncTable) (saved_beta : ℕ) :
    Except PyError Unit × HostState :=
  let st1 := { st with mm_injected := false }
  match motion_module with
  | none => (.error .attributeError, st1)
  | some _ =>
      let st2 := { st1 with mm_scale_set := false }
      let st3 := { st2 with funcs := saved_funcs, beta_schedule := saved_beta }
      let st4 := { st3 with adgs := st3.adgs.reset }
      (.ok (), st4)

/-- Embedding of `animatediff_sample` (lines 121-213) as produced by
`animatediff_sample_factory`.  A model without injected motion-module
parameters short-circuits to the original sample function (lines 124-125)
without touching any state.  Otherwise the try body clones the params,
overrides the video length with the latent count (lines 129-132), resets
the global state, saves the five function slots and the beta schedule,
installs the replacement functions (the two conditional ones only under
their hack flags), loads and injects the motion module, registers the
suggested beta schedule, populates the global state, and runs the
wrapped original sampler; the per-step callback bookkeeping and the
model-level `inject_params_into_model` have no host-state effect here.
External collaborator calls are modelled from the spec as non-raising
except at the selected `FailPoint`, where they raise
`PyError.runtimeError`.  Within the finally semantics, an exception in
the finally block replaces the in-flight body exception. -/
def animatediff_sample (orig_comfy_sample : Model → ℕ → ℕ)
    (fail : FailPoint) (model : Model) (latents : ℕ) (st : HostState) :
    Except PyError ℕ × HostState :=
  match model.injected_params with
  | none => (.ok (orig_comfy_sample model latents), st)
  | some params0 =>
      let params := { params0 with video_length := latents }
      let st1 := { st with adgs := st.adgs.reset }
      let saved_funcs := st1.funcs
      let saved_beta := st1.beta_schedule
      let patched : FuncTable :=
        { forward_timestep_embed := injected_forward_timestep_embed
          maximum_batch_area :=
            if params.unlimited_area_hack then injected_unlimited_batch_area
            else st1.funcs.maximum_batch_area
          groupnorm_forward := injected_groupnorm_mm_forward
          groupnormad_forward :=
            if params.apply_mm_groupnorm_hack then injected_groupnorm_mm_forward
            else st1.funcs.groupnormad_forward
          sampling_function := injected_sliding_sampling_function }
      let st2 := { st1 with funcs := patched }
      let body :=
        if fail = .atLoadMotionModule then
          ((.error .runtimeError : Except PyError ℕ), st2, (none : Option ℕ))
        else
          let st3 :=
            { st2 with
              mm_injected := true
              beta_schedule := params.beta_schedule
              mm_scale_set := true }
          let st4 := { st3 with adgs :=
            { st3.adgs.update_with_inject_params params with motion_module := some 1 } }
          if fail = .atOrigSample then
            ((.error .runtimeError : Except PyError ℕ), st4, (some 1 : Option ℕ))
          else ((.ok (orig_comfy_sample model latents) : Except PyError ℕ), st4,
            (some 1 : Option ℕ))
      let fin := finally_block body.2.1 body.2.2 saved_funcs saved_beta
      match fin.1 with
      | .error e2 => (.error e2, fin.2)
      | .ok _ => (body.1, fin.2)

/-- Unit tensor used by the concrete evaluations. -/
def xUnit : Tensor4 := ⟨1, 1, 1, 1, fun _ _ _ _ => 0⟩

/-- Constant model function used by the concrete evaluations. -/
def mfZero : ModelFn := fun _ _ _ => xUnit

/-- A no-sliding global state: context frames unset. -/
def gsNoSliding : GlobalState :=
  ⟨0, 0, 0, 0, 0, none, none, none, none, false, false, none, none⟩

/-- Original host function table used by the concrete evaluations. -/
def origFuncs : FuncTable := ⟨1, 2, 3, 4, 5⟩

/-- Initial host state used by the concrete evaluations. -/
def hostInit : HostState := ⟨origFuncs, 7, gsNoSliding, false, false⟩

/-- Injection parameters with both groupnorm hacks enabled, used by the
concrete evaluations. -/
def paramsAll : InjectionParams :=
  ⟨0, some 16, some 1, some 4, some "uniform", false, false, true, true, 9, false⟩

/-- Control chain whose head exposes the window-scope protocol. -/
def ctrlChainA : Control :=
  ⟨⟨true, none, 0, 0, 7⟩, [⟨true, none, 0, 0, 9⟩, ⟨false, none, 0, 0, 11⟩]⟩

/-- Control handle lacking the window-scope protocol. -/
def ctrlChainB : Control := ⟨⟨false, none, 0, 0, 7⟩, []⟩

/-- Two merge-candidate tuples sharing shapes but differing in control. -/
def tupleA : CondTuple :=
  ⟨xUnit, xUnit, [("c_crossattn", ⟨[1, 77, 768], 0⟩)], ⟨1, 1, 0, 0⟩, none, none⟩

/-- Second merge-candidate tuple. -/
def tupleB : CondTuple :=
  ⟨xUnit, xUnit, [("c_crossattn", ⟨[1, 77, 768], 1⟩)], ⟨1, 1, 0, 0⟩, some 3, none⟩

/-- Lookup success for any key present in the key list. -/
lemma dictLookup_isSome {d : List (String × CondItem)} {k : String}
    (h : k ∈ dictKeys d) : ∃ v, dictLookup d k = some v := by
  induction d with
  | nil => simp [dictKeys] at h
  | cons kv rest ih =>
      by_cases hk : kv.1 = k
      · exact ⟨kv.2, by simp [dictLookup, hk]⟩
      · have hmem : k ∈ dictKeys rest := by
          rcases (by simpa [dictKeys] using h) with h1 | h1
          · exact absurd h1.symm hk
          · simpa [dictKeys] using h1
        rcases ih hmem with ⟨v, hv⟩
        exact ⟨v, by simp [dictLookup, hk, hv]⟩

/-- A successful lookup comes from a member of the association list. -/
lemma dictLookup_mem {d : List (String × CondItem)} {k : String} {v : CondItem}
    (h : dictLookup d k = some v) : (k, v) ∈ d := by
  induction d with
  | nil => simp [dictLookup] at h
  | cons kv rest ih =>
      by_cases hk : kv.1 = k
      · simp [dictLookup, hk] at h
        subst hk; subst h
        exact List.mem_cons_self _ _
      · simp [dictLookup, hk] at h
        exact List.mem_cons_of_mem _ (ih h)

/-- Key membership obtained from a member pair. -/
lemma mem_dictKeys_of_mem {d : List (String × CondItem)} {kv : String × CondItem}
    (h : kv ∈ d) : kv.1 ∈ dictKeys d := List.mem_map_of_mem Prod.fst h

/-- With duplicate-free keys a member pair is recovered by lookup. -/
lemma dictLookup_of_mem {d : List (String × CondItem)}
    (hnd : (dictKeys d).Nodup) {k : String} {v : CondItem}
    (h : (k, v) ∈ d) : dictLookup d k = some v := by
  induction d with
  | nil => simp at h
  | cons kv rest ih =>
      rw [show dictKeys (kv :: rest) = kv.1 :: dictKeys rest from rfl] at hnd
      rcases List.mem_cons.mp h with h1 | h1
      · subst h1; simp [dictLookup]
      · have hk : kv.1 ≠ k := by
          intro hkk
          exact (List.nodup_cons.mp hnd).1 (hkk ▸ mem_dictKeys_of_mem h1)
        simp [dictLookup, hk, ih (List.nodup_cons.mp hnd).2 h1]

/-- Symmetry of the modelled conditioning-value concatenability. -/
lemma CondItem.can_concat_symm (a b : CondItem) :
    a.can_concat b = b.can_concat a := by
  unfold CondItem.can_concat
  by_cases h : a.shape = b.shape
  · simp [h]
  · have h2 : ¬ b.shape = a.shape := fun hh => h hh.symm
    simp [h, h2]

/-- The per-key concatenability pass of `cond_equal_size`, rephrased as a
statement over lookups, assuming duplicate-free keys on the left and key
inclusion into the right dictionary. -/
lemma cond_all_iff {c1 c2 : List (String × CondItem)}
    (hnd1 : (dictKeys c1).Nodup) (hsub : dictKeys c1 ⊆ dictKeys c2) :
    (c1.all fun kv =>
      match dictLookup c2 kv.1 with
      | some v2 => kv.2.can_concat v2
      | none => false) = true ↔
    (∀ k v1 v2, dictLookup c1 k = some v1 → dictLookup c2 k = some v2 →
      v1.can_concat v2 = true) := by
  rw [List.all_eq_true]
  constructor
  · intro H k v1 v2 h1 h2
    have hm := dictLookup_mem h1
    have := H (k, v1) hm
    simpa [h2] using this
  · intro H kv hm
    have h1 := dictLookup_of_mem hnd1 hm
    have hk : kv.1 ∈ dictKeys c2 := hsub (mem_dictKeys_of_mem hm)
    obtain ⟨v2, hv2⟩ := dictLookup_isSome hk
    simpa [hv2] using H kv.1 kv.2 v2 h1 hv2

/-- Symmetry of `cond_equal_size` on well-formed (duplicate-free-key)
conditioning dictionaries. -/
lemma cond_equal_size_symm {c1 c2 : List (String × CondItem)}
    (h1 : (dictKeys c1).Nodup) (h2 : (dictKeys c2).Nodup) :
    cond_equal_size c1 c2 = cond_equal_size c2 c1 := by
  unfold cond_equal_size
  by_cases he : c1 = c2
  · simp [he]
  · have he' : ¬ c2 = c1 := fun h => he h.symm
    rw [if_neg he, if_neg he']
    by_cases hs : dictKeys c1 ⊆ dictKeys c2 ∧ dictKeys c2 ⊆ dictKeys c1
    · rw [if_neg (not_not_intro hs), if_neg (not_not_intro ⟨hs.2, hs.1⟩)]
      rw [Bool.eq_iff_iff, cond_all_iff h1 hs.1, cond_all_iff h2 hs.2]
      constructor
      · intro H k v1 v2 ha hb
        rw [CondItem.can_concat_symm]
        exact H k v2 v1 hb ha
      · intro H k v1 v2 ha hb
        rw [CondItem.can_concat_symm]
        exact H k v2 v1 hb ha
    · have hs' : ¬ (dictKeys c2 ⊆ dictKeys c1 ∧ dictKeys c1 ⊆ dictKeys c2) := by
        intro hh; exact hs ⟨hh.2, hh.1⟩
      rw [if_pos hs, if_pos hs']

/-- Reflexivity of the merge-compatibility predicate: the shape test, the
identity tests on control and patches, and the identity shortcut of
`cond_equal_size` all pass on equal arguments. -/
lemma can_concat_cond_refl (c : CondTuple) : can_concat_cond c c = true := by
  unfold can_concat_cond cond_equal_size
  simp

/-- Symmetry of the merge-compatibility predicate on requests with
well-formed conditioning dictionaries. -/
lemma can_concat_cond_symm (c1 c2 : CondTuple)
    (h1 : (dictKeys c1.conditioning).Nodup) (h2 : (dictKeys c2.conditioning).Nodup) :
    can_concat_cond c1 c2 = can_concat_cond c2 c1 := by
  unfold can_concat_cond
  by_cases hs : c1.input_x.shape4 = c2.input_x.shape4
  · rw [if_neg (not_not_intro hs), if_neg (not_not_intro hs.symm)]
    by_cases hn : c1.control.isNone = c2.control.isNone
    · rw [if_neg (not_not_intro hn), if_neg (not_not_intro hn.symm)]
      by_cases hc : c1.control = c2.control
      · have hnot1 : ¬ (c1.control.isSome = true ∧ c1.control ≠ c2.control) := by
          intro hh; exact hh.2 hc
        have hnot2 : ¬ (c2.control.isSome = true ∧ c2.control ≠ c1.control) := by
          intro hh; exact hh.2 hc.symm
        rw [if_neg hnot1, if_neg hnot2]
        by_cases hp : c1.patches.isNone = c2.patches.isNone
        · rw [if_neg (not_not_intro hp), if_neg (not_not_intro hp.symm)]
          by_cases hq : c1.patches = c2.patches
          · have hq1 : ¬ (c1.patches.isSome = true ∧ c1.patches ≠ c2.patches) := by
              intro hh; exact hh.2 hq
            have hq2 : ¬ (c2.patches.isSome = true ∧ c2.patches ≠ c1.patches) := by
              intro hh; exact hh.2 hq.symm
            rw [if_neg hq1, if_neg hq2]
            exact cond_equal_size_symm h1 h2
          · have hsome1 : c1.patches.isSome = true := by
              cases ha : c1.patches with
              | none =>
                  cases hb : c2.patches with
                  | none => exact absurd (ha.trans hb.symm) hq
                  | some v => rw [ha, hb] at hp; simp at hp
              | some v => simp
            have hsome2 : c2.patches.isSome = true := by
              cases hb : c2.patches with
              | some v => simp
              | none =>
                  cases ha : c1.patches with
                  | none => exact absurd (ha.trans hb.symm) hq
                  | some v => rw [ha, hb] at hp; simp at hp
            rw [if_pos ⟨hsome1, hq⟩, if_pos ⟨hsome2, fun h => hq h.symm⟩]
        · have hp2 : c2.patches.isNone ≠ c1.patches.isNone := fun h => hp h.symm
          rw [if_pos hp, if_pos hp2]
      · have hsome1 : c1.control.isSome = true := by
          cases ha : c1.control with
          | none =>
              cases hb : c2.control with
              | none => exact absurd (ha.trans hb.symm) hc
              | some v => rw [ha, hb] at hn; simp at hn
          | some v => simp
        have hsome2 : c2.control.isSome = true := by
          cases hb : c2.control with
          | some v => simp
          | none =>
              cases ha : c1.control with
              | none => exact absurd (ha.trans hb.symm) hc
              | some v => rw [ha, hb] at hn; simp at hn
        rw [if_pos ⟨hsome1, hc⟩, if_pos ⟨hsome2, fun h => hc h.symm⟩]
    · have hn2 : c2.control.isNone ≠ c1.control.isNone := fun h => hn h.symm
      rw [if_pos hn, if_pos hn2]
  · have hs2 : c2.input_x.shape4 ≠ c1.input_x.shape4 := fun h => hs h.symm
    rw [if_pos hs, if_pos hs2]

/-- The selection loop keeps the fallback `take 1` when no candidate size
passes the area budget. -/
lemma select_batch_loop_all_fail {l : List ℕ} {s0 s2 s3 budget : ℕ} {is : List ℕ}
    (h : ∀ i ∈ is, ¬ (l.length / i * s0 * s2 * s3 < budget)) :
    select_batch_loop l s0 s2 s3 budget is = l.take 1 := by
  induction is with
  | nil => rfl
  | cons i rest ih =>
      have hcond : ¬ ((l.take (l.length / i)).length * s0 * s2 * s3 < budget) := by
        rw [List.length_take, Nat.min_eq_left (Nat.div_le_self _ _)]
        exact h i (List.mem_cons_self _ _)
      simp only [select_batch_loop, if_neg hcond]
      exact ih fun j hj => h j (List.mem_cons_of_mem _ hj)

/-- The selection loop stops at the first candidate divisor whose batch
area fits under the budget. -/
lemma select_batch_loop_min {l : List ℕ} {s0 s2 s3 budget i0 : ℕ}
    (hP : l.length / i0 * s0 * s2 * s3 < budget) :
    ∀ (cnt a : ℕ), a ≤ i0 → i0 < a + cnt →
      (∀ j, a ≤ j → j < i0 → ¬ (l.length / j * s0 * s2 * s3 < budget)) →
      select_batch_loop l s0 s2 s3 budget (List.range' a cnt) = l.take (l.length / i0) := by
  intro cnt
  induction cnt with
  | zero => intro a ha hlt _; omega
  | succ n ih =>
      intro a ha hlt hmin
      rw [List.range'_succ]
      by_cases hai : a = i0
      · subst hai
        have hcond : (l.take (l.length / a)).length * s0 * s2 * s3 < budget := by
          rw [List.length_take, Nat.min_eq_left (Nat.div_le_self _ _)]
          exact hP
        simp only [select_batch_loop, if_pos hcond]
      · have halt : a < i0 := lt_of_le_of_ne ha hai
        have hcond : ¬ ((l.take (l.length / a)).length * s0 * s2 * s3 < budget) := by
          rw [List.length_take, Nat.min_eq_left (Nat.div_le_self _ _)]
          exact hmin a le_rfl halt
        simp only [select_batch_loop, if_neg hcond]
        exact ih (a + 1) halt (by omega) fun j hj hj2 => hmin j (by omega) hj2

/-- The selected batch is never empty and never exceeds the group. -/
lemma select_batch_loop_length {l : List ℕ} {s0 s2 s3 budget : ℕ} (hne : l ≠ [])
    (is : List ℕ) (his : ∀ i ∈ is, 1 ≤ i ∧ i ≤ l.length) :
    1 ≤ (select_batch_loop l s0 s2 s3 budget is).length ∧
      (select_batch_loop l s0 s2 s3 budget is).length ≤ l.length := by
  have hlen : 1 ≤ l.length := List.length_pos.mpr hne
  induction is with
  | nil =>
      simp only [select_batch_loop, List.length_take]
      omega
  | cons i rest ih =>
      have hi := his i (List.mem_cons_self _ _)
      have hdiv : 1 ≤ l.length / i := (Nat.one_le_div_iff (by omega)).mpr hi.2
      by_cases hcond : (l.take (l.length / i)).length * s0 * s2 * s3 < budget
      · rw [show select_batch_loop l s0 s2 s3 budget (i :: rest) =
            l.take (l.length / i) from if_pos hcond]
        rw [List.length_take]
        have := Nat.div_le_self l.length i
        omega
      · rw [show select_batch_loop l s0 s2 s3 budget (i :: rest) =
            select_batch_loop l s0 s2 s3 budget rest from if_neg hcond]
        exact ih fun j hj => his j (List.mem_cons_of_mem _ hj)

/-- Membership in an expanded window, for a window whose indices are all
below the sequence length. -/
lemma mem_expand_full_idxs {axes_factor video_length : ℕ} {ctx : List ℕ}
    (hctx : ∀ j ∈ ctx, j < video_length) (i : ℕ) :
    i ∈ expand_full_idxs axes_factor video_length ctx ↔
      i / video_length < axes_factor ∧ i % video_length ∈ ctx := by
  unfold expand_full_idxs
  rw [List.mem_flatMap]
  constructor
  · rintro ⟨n, hn, hmem⟩
    rw [List.mem_range] at hn
    rw [List.mem_map] at hmem
    obtain ⟨ind, hind, rfl⟩ := hmem
    have hlt := hctx ind hind
    have hvl : 0 < video_length := lt_of_le_of_lt (Nat.zero_le ind) hlt
    refine ⟨?_, ?_⟩
    · rw [Nat.mul_add_div hvl, Nat.div_eq_of_lt hlt]
      simpa using hn
    · rw [Nat.mul_add_mod, Nat.mod_eq_of_lt hlt]
      exact hind
  · rintro ⟨hdiv, hmod⟩
    refine ⟨i / video_length, List.mem_range.mpr hdiv,
      List.mem_map.mpr ⟨i % video_length, hmod, ?_⟩⟩
    exact Nat.div_add_mod i video_length

/-- The entry loop of the projection preserves the field names and their
order, and rewrites each field value by the single-field rule. -/
lemma resize_cond_entry_fields {α : Type} [Inhabited α] {xlen : ℕ} {full_idxs : List ℕ}
    {video_length context_frames : ℕ} :
    ∀ entry entry2 : List (String × CondValue α),
      resize_cond_entry xlen full_idxs video_length context_frames entry = .ok entry2 →
      entry2.length = entry.length ∧
      ∀ p, p < entry.length →
        (entry2.getD p default).1 = (entry.getD p default).1 ∧
        resize_cond_field xlen full_idxs video_length context_frames
          (entry.getD p default).1 (entry.getD p default).2 = .ok (entry2.getD p default).2 := by
  intro entry
  induction entry with
  | nil =>
      intro entry2 h
      simp only [resize_cond_entry, pure, Except.pure, Except.ok.injEq] at h
      subst h
      simp
  | cons kv rest ih =>
      intro entry2 h
      rw [resize_cond_entry] at h
      simp only [Bind.bind, Except.bind, Functor.map, Except.map, pure, Except.pure] at h
      cases hv : resize_cond_field xlen full_idxs video_length context_frames kv.1 kv.2 with
      | error e => rw [hv] at h; simp at h
      | ok v =>
          rw [hv] at h
          cases hr : resize_cond_entry xlen full_idxs video_length context_frames rest with
          | error e => rw [hr] at h; simp at h
          | ok rest2 =>
              rw [hr] at h
              simp only [Except.ok.injEq] at h
              subst h
              obtain ⟨hlen, hfields⟩ := ih rest2 hr
              refine ⟨by simp [hlen], ?_⟩
              intro p hp
              cases p with
              | zero => simpa using hv
              | succ q =>
                  simp only [List.getD_cons_succ, List.length_cons] at hp ⊢
                  exact hfields q (by omega)

/-- Element access of a gathered row list. -/
lemma gatherRows_getD {α : Type} [Inhabited α] (rows : List α) (idxs : List ℕ)
    (p : ℕ) (hp : p < idxs.length) :
    (gatherRows rows idxs).getD p default = rows.getD (idxs.getD p 0) default := by
  unfold gatherRows
  rw [List.getD_eq_getElem?_getD, List.getElem?_map, List.getElem?_eq_getElem hp]
  rw [List.getD_eq_getElem?_getD (l := idxs), List.getElem?_eq_getElem hp]
  simp

/-- C1: the claim states the batching loop of `calc_cond_uncond_batch`
repeats until every gated request is consumed, scattering each chunk
with its blend multiplier and accumulating the multipliers, and only
after all requests are consumed divides the two buffers by their counts
and returns.  The code instead crashes on the very first batch: with one
plain conditioned request, the scatter loop executes `del input_x` on a
local already deleted at line 431 (and its else branch reads that
deleted local), raising `UnboundLocalError`; the normalisation and the
return statement moreover sit inside the while loop. -/
theorem calc_cond_uncond_batch_crashes :
    calc_cond_uncond_batch mfZero [{}] none xUnit [5] 100 {} =
      .error .unboundLocalError := rfl

/-- C2: the claim states `sliding_sampling_function` returns a value
combined from two tensors via classifier-free guidance and never
returns `None`.  The code returns `None` for every input: its intended
body (lines 553-565) is unreachable dead code indented inside the nested
`sliding_calc_cond_uncond_batch` after its return. -/
theorem sliding_sampling_function_returns_none
    (gs : GlobalState) (mf : ModelFn) (x : Tensor4) (ts : List ℚ)
    (uncond : Option (List CondRequest)) (cond : List CondRequest)
    (cond_scale : ℚ) (mo : ModelOptions) :
    sliding_sampling_function gs mf x ts uncond cond cond_scale mo = none := rfl

/-- C4: the claim states that with no active sliding context the
top-level denoising step returns bit-for-bit the output of one direct
`calc_cond_uncond_batch` call on the full batch.  It fails: the step
returns `None` without dispatching anywhere (the dispatch of
lines 557-560 is unreachable), while the direct call on the same full
batch raises `UnboundLocalError`, so no equality of outputs holds. -/
theorem no_window_equivalence_fails :
    GlobalState.is_using_sliding_context gsNoSliding = false ∧
    sliding_sampling_function gsNoSliding mfZero xUnit [5] (some []) [{}] (15 / 2) {} =
      none ∧
    calc_cond_uncond_batch mfZero [{}] (some []) xUnit [5] 100 {} =
      .error .unboundLocalError :=
  ⟨rfl, rfl, rfl⟩

/-- C5: the projection of a conditioning entry keeps the field names in
order and rewrites each field by the single-field rule; a tensor field
whose leading dimension equals the full batch length is replaced by the
order-preserving (duplicate-friendly) gather of its rows at the target
indices; a tensor of any other leading dimension and any opaque
(non-tensor, non-control, non-mapping) field pass through unchanged. -/
theorem get_resized_cond_projection {α : Type} [Inhabited α]
    (xlen : ℕ) (full_idxs : List ℕ) (video_length context_frames : ℕ) :
    (∀ entry entry2 : List (String × CondValue α),
      resize_cond_entry xlen full_idxs video_length context_frames entry = .ok entry2 →
      entry2.length = entry.length ∧
      ∀ p, p < entry.length →
        (entry2.getD p default).1 = (entry.getD p default).1 ∧
        resize_cond_field xlen full_idxs video_length context_frames
          (entry.getD p default).1 (entry.getD p default).2 =
          .ok (entry2.getD p default).2) ∧
    (∀ (key : String) (rows : List α), rows.length = xlen →
      resize_cond_field xlen full_idxs video_length context_frames key (.tensor rows) =
        .ok (.tensor (gatherRows rows full_idxs)) ∧
      (gatherRows rows full_idxs).length = full_idxs.length ∧
      ∀ p, p < full_idxs.length →
        (gatherRows rows full_idxs).getD p default =
          rows.getD (full_idxs.getD p 0) default) ∧
    (∀ (key : String) (rows : List α), rows.length ≠ xlen →
      resize_cond_field xlen full_idxs video_length context_frames key (.tensor rows) =
        .ok (.tensor rows)) ∧
    (∀ (key : String) (pl : ℕ), key ≠ "control" →
      resize_cond_field xlen full_idxs video_length context_frames key
        (CondValue.scalarVal (α := α) pl) = .ok (.scalarVal pl)) := by
  refine ⟨fun entry entry2 h => resize_cond_entry_fields entry entry2 h, ?_, ?_, ?_⟩
  · intro key rows hl
    exact ⟨by simp [resize_cond_field, hl, pure, Except.pure],
      by simp [gatherRows],
      fun p hp => gatherRows_getD rows full_idxs p hp⟩
  · intro key rows hl
    simp [resize_cond_field, hl, pure, Except.pure]
  · intro key pl hk
    simp [resize_cond_field, hk, pure, Except.pure]

/-- Witness for C5: the spec scenario, a 16-row tensor projected onto
the indices [0, 1, 2, 6, 7]. -/
theorem get_resized_cond_projection_witness :
    resize_cond_field (α := ℕ) 16 [0, 1, 2, 6, 7] 16 5 "pooled_output"
      (.tensor (List.range 16)) = .ok (.tensor [0, 1, 2, 6, 7]) := by
  have h := (get_resized_cond_projection (α := ℕ) 16 [0, 1, 2, 6, 7] 16 5).2.1
    "pooled_output" (List.range 16) (by decide)
  have hg : gatherRows (α := ℕ) (List.range 16) [0, 1, 2, 6, 7] = [0, 1, 2, 6, 7] := by
    decide
  rw [h.1, hg]

/-- C6: a control field whose handle exposes the window-scope protocol
has every link of its chain updated with the window indices, the full
sequence length and the window length, all other attributes and the
chain structure preserved (the source mutates the shared handle in
place, returning the same object); a handle lacking the protocol makes
the projection fail hard with the unsupported-control-type error. -/
theorem control_projection_window_scope {α : Type} [Inhabited α]
    (xlen : ℕ) (full_idxs : List ℕ) (video_length context_frames : ℕ) (c : Control) :
    (c.head.supports_sliding = true →
      resize_cond_field (α := α) xlen full_idxs video_length context_frames "control"
          (.control c) =
        .ok (.control (prepare_control_objects c full_idxs video_length context_frames)) ∧
      (prepare_control_objects c full_idxs video_length context_frames).head.sub_idxs =
        some full_idxs ∧
      (prepare_control_objects c full_idxs video_length context_frames).head.full_latent_length =
        video_length ∧
      (prepare_control_objects c full_idxs video_length context_frames).head.context_length =
        context_frames ∧
      (∀ l ∈ (prepare_control_objects c full_idxs video_length context_frames).prev,
        l.sub_idxs = some full_idxs ∧ l.full_latent_length = video_length ∧
          l.context_length = context_frames) ∧
      (prepare_control_objects c full_idxs video_length context_frames).head.payload =
        c.head.payload ∧
      (prepare_control_objects c full_idxs video_length context_frames).head.supports_sliding =
        c.head.supports_sliding ∧
      (prepare_control_objects c full_idxs video_length context_frames).prev.length =
        c.prev.length ∧
      (∀ p, p < c.prev.length →
        ((prepare_control_objects c full_idxs video_length context_frames).prev.getD p
          default).payload = (c.prev.getD p default).payload ∧
        ((prepare_control_objects c full_idxs video_length context_frames).prev.getD p
          default).supports_sliding = (c.prev.getD p default).supports_sliding)) ∧
    (c.head.supports_sliding = false →
      resize_cond_field (α := α) xlen full_idxs video_length context_frames "control"
        (.control c) = .error .valueError) := by
  constructor
  · intro hsupp
    refine ⟨by simp [resize_cond_field, hsupp, pure, Except.pure], by
      simp [prepare_control_objects, set_window_scope], by
      simp [prepare_control_objects, set_window_scope], by
      simp [prepare_control_objects, set_window_scope], ?_, by
      simp [prepare_control_objects, set_window_scope], by
      simp [prepare_control_objects, set_window_scope], by
      simp [prepare_control_objects], ?_⟩
    · intro l hl
      obtain ⟨l0, _, rfl⟩ := List.mem_map.mp hl
      simp [set_window_scope]
    · intro p hp
      have hmap :
          (prepare_control_objects c full_idxs video_length context_frames).prev.getD p
            default =
          set_window_scope (c.prev.getD p default) full_idxs video_length context_frames := by
        simp only [prepare_control_objects]
        rw [List.getD_eq_getElem?_getD, List.getElem?_map, List.getElem?_eq_getElem hp]
        rw [List.getD_eq_getElem?_getD (l := c.prev), List.getElem?_eq_getElem hp]
        simp
      rw [hmap]
      simp [set_window_scope]
  · intro hsupp
    simp only [resize_cond_field, hsupp, Bool.false_eq_true, if_false, if_pos]
    rfl

/-- Witness for C6: one protocol-supporting chain updated, one
non-supporting handle rejected. -/
theorem control_projection_window_scope_witness :
    resize_cond_field (α := ℕ) 16 [0, 1, 2] 16 8 "control" (.control ctrlChainA) =
      .ok (.control (prepare_control_objects ctrlChainA [0, 1, 2] 16 8)) ∧
    resize_cond_field (α := ℕ) 16 [0, 1, 2] 16 8 "control" (.control ctrlChainB) =
      .error .valueError :=
  ⟨((control_projection_window_scope 16 [0, 1, 2] 16 8 ctrlChainA).1 rfl).1,
   (control_projection_window_scope 16 [0, 1, 2] 16 8 ctrlChainB).2 rfl⟩

/-- Counterexample for C7: a mergeable group of six requests of unit
area under a budget of five.  The source selection picks the prefix of
length 6 / 2 = 3, but the largest power-of-two subset size under the
budget is 4, so the claimed power-of-two-by-repeated-halving rule does
not describe the code. -/
theorem select_to_batch_pow2_counterexample :
    (select_to_batch (List.range 6).reverse 1 1 1 5).length = 3 ∧
    claimed_pow2_batch_size 6 1 1 1 5 = 4 ∧
    (select_to_batch (List.range 6).reverse 1 1 1 5).length ≠
      claimed_pow2_batch_size 6 1 1 1 5 := by decide

/-- C7 (amended): within a mergeable group of size n the planner tries
the candidate sizes n / i for i = 1, 2, ..., n in order and picks the
first whose total area (size × per-request batch area) is strictly under
the budget — successive integer divisions, not powers of two, and not
necessarily the largest subset fitting the budget; when no candidate
fits (in particular when the budget is at most the area of one request) it
falls back to exactly one request, so the selection is never empty,
never larger than the group, and the bounded loop always terminates. -/
theorem select_to_batch_amended (l : List ℕ) (s0 s2 s3 budget : ℕ) (hne : l ≠ []) :
    (1 ≤ (select_to_batch l s0 s2 s3 budget).length ∧
      (select_to_batch l s0 s2 s3 budget).length ≤ l.length) ∧
    (budget ≤ s0 * s2 * s3 →
      select_to_batch l s0 s2 s3 budget = l.take 1 ∧
      (select_to_batch l s0 s2 s3 budget).length = 1) ∧
    (∀ i0, 1 ≤ i0 → i0 ≤ l.length → l.length / i0 * s0 * s2 * s3 < budget →
      (∀ j, 1 ≤ j → j < i0 → ¬ (l.length / j * s0 * s2 * s3 < budget)) →
      select_to_batch l s0 s2 s3 budget = l.take (l.length / i0)) := by
  have hlen : 1 ≤ l.length := List.length_pos.mpr hne
  refine ⟨?_, ?_, ?_⟩
  · exact select_batch_loop_length hne _ fun i hi => by
      have := List.mem_range'_1.mp hi
      omega
  · intro hb
    have hall : ∀ i ∈ List.range' 1 l.length,
        ¬ (l.length / i * s0 * s2 * s3 < budget) := by
      intro i hi hlt
      have hmem := List.mem_range'_1.mp hi
      have h1 : 1 ≤ l.length / i := (Nat.one_le_div_iff (by omega)).mpr (by omega)
      have h2 : 1 * s0 * s2 * s3 ≤ l.length / i * s0 * s2 * s3 :=
        Nat.mul_le_mul_right s3 (Nat.mul_le_mul_right s2 (Nat.mul_le_mul_right s0 h1))
      rw [Nat.one_mul] at h2
      omega
    rw [select_to_batch, select_batch_loop_all_fail hall]
    exact ⟨rfl, by rw [List.length_take]; omega⟩
  · intro i0 h1 h2 hP hmin
    rw [select_to_batch]
    exact select_batch_loop_min hP l.length 1 h1 (by omega)
      fun j hj hj2 => hmin j hj hj2

/-- Witness for C7 (amended): with a budget of one and unit request
area, a three-request group yields exactly the single batch [2]. -/
theorem select_to_batch_amended_witness :
    select_to_batch [2, 1, 0] 1 1 1 1 = [2] :=
  ((select_to_batch_amended [2, 1, 0] 1 1 1 1 (by decide)).2.1 (by decide)).1

/-- C8: the claim states that any exception during an injected run
propagates unmodified and that the full teardown (function-slot
restoration, beta schedule, motion-module ejection, global-state reset)
still executes.  The code violates this whenever the exception is raised
before the motion module is bound (here: `load_motion_module` raising at
line 159): the finally block then calls `reset_scale_multiplier()` on
the still-`None` local, raising `AttributeError`, which replaces the
original error and aborts the block before any restoration runs — the
five patched slots stay patched. -/
theorem animatediff_sample_teardown_skipped :
    (animatediff_sample (fun _ _ => 42) .atLoadMotionModule ⟨some paramsAll⟩ 16
      hostInit).1 = .error .attributeError ∧
    (animatediff_sample (fun _ _ => 42) .atLoadMotionModule ⟨some paramsAll⟩ 16
      hostInit).1 ≠ .error .runtimeError ∧
    (animatediff_sample (fun _ _ => 42) .atLoadMotionModule ⟨some paramsAll⟩ 16
      hostInit).2.funcs.sampling_function = injected_sliding_sampling_function ∧
    (animatediff_sample (fun _ _ => 42) .atLoadMotionModule ⟨some paramsAll⟩ 16
      hostInit).2.funcs ≠ hostInit.funcs ∧
    (animatediff_sample (fun _ _ => 42) .atLoadMotionModule ⟨some paramsAll⟩ 16
      hostInit).2.beta_schedule = hostInit.beta_schedule := by
  refine ⟨rfl, ?_, rfl, ?_, rfl⟩
  · intro h
    exact PyError.noConfusion (Except.error.inj h)
  · intro h
    exact absurd (congrArg FuncTable.sampling_function h) (by decide)

/-- C9: the merge-compatibility predicate `can_concat_cond` is
reflexive (every request merges with itself, via the shape equality, the
identity checks and the identity shortcut of `cond_equal_size`) and, on
requests whose conditioning dictionaries have duplicate-free keys (as
every Python dict does), symmetric. -/
theorem can_concat_cond_refl_and_symm :
    (∀ c : CondTuple, can_concat_cond c c = true) ∧
    (∀ c1 c2 : CondTuple, (dictKeys c1.conditioning).Nodup →
      (dictKeys c2.conditioning).Nodup →
      can_concat_cond c1 c2 = can_concat_cond c2 c1) :=
  ⟨can_concat_cond_refl, can_concat_cond_symm⟩

/-- Witness for C9 at two concrete requests. -/
theorem can_concat_cond_refl_and_symm_witness :
    can_concat_cond tupleA tupleA = true ∧
    can_concat_cond tupleA tupleB = can_concat_cond tupleB tupleA :=
  ⟨can_concat_cond_refl_and_symm.1 tupleA,
   can_concat_cond_refl_and_symm.2 tupleA tupleB (by decide) (by decide)⟩

/-- C10: a model without injected motion-module parameters makes the
wrapped sampler return exactly the original sample call on the same
arguments, with no patching, no loading and no state mutation: the host
state is returned untouched. -/
theorem animatediff_sample_passthrough (orig : Model → ℕ → ℕ) (fail : FailPoint)
    (model : Model) (latents : ℕ) (st : HostState)
    (h : model.injected_params = none) :
    animatediff_sample orig fail model latents st =
      (.ok (orig model latents), st) := by
  unfold animatediff_sample
  rw [h]

/-- Witness for C10 at a concrete uninjected model. -/
theorem animatediff_sample_passthrough_witness :
    animatediff_sample (fun _ l => l + 1) .noFail ⟨none⟩ 16 hostInit =
      (.ok 17, hostInit) :=
  animatediff_sample_passthrough (fun _ l => l + 1) .noFail ⟨none⟩ 16 hostInit rfl

/-- C3: the claim describes the sliding accumulation loop: a per-frame
usage counter initialised to zero, one additive sub-result and a count
increment of exactly 1 per window, then an element-wise division by the
counts that the coverage precondition keeps free of zero, with the
baseline count buffers instead starting at the strictly positive
epsilon 1/100000.  The initialisations are as claimed (lines 340-344
and 467-469), but the loop body can never complete a window: the nested
`calc_cond_uncond_batch` call of line 542 raises `UnboundLocalError`
for any request that passes gating, and returns `None` - which the
tuple unpacking of line 542 rejects with `TypeError` - when every
request is gated away, so the sliding path aborts inside its first
window and the renormalising division of lines 548-551 is unreachable.
Evaluated at one window over a single-frame batch, first with one plain
conditioned request, then with one fully gated request. -/
theorem sliding_calc_crashes_before_renormalisation :
    sliding_calc_cond_uncond_batch mfZero (fun _ => true) [{}] none xUnit [5] 100 {}
      1 [[0]] = .error .unboundLocalError ∧
    sliding_calc_cond_uncond_batch mfZero (fun _ => true) [{ timestep_end := some 10 }]
      none xUnit [5] 100 {} 1 [[0]] = .error .typeError ∧
    (∀ i j y z, (calc_init_count xUnit).data i j y z = 1 / 100000) ∧
    (0 : ℚ) < 1 / 100000 :=
  ⟨rfl, rfl, fun _ _ _ _ => rfl, by norm_num⟩
